import Mathlib

/-!
Shallow embedding of the transcription-proxy core
(`app/utils.py`, `app/assemblyai_client.py`, `app/main.py`).

Conventions of the embedding:
* Python dict fields that may be missing are `Option` fields; `d.get(k, v)`
  becomes `field.getD v`.
* Python truthiness on strings/lists (`if x:`) is made explicit
  (`truthyStr`, `truthyList`: empty string / empty list are falsy).
* Numeric values that Python holds as floats are modelled as `ℚ`; every
  arithmetic operation performed by the code (`/ 1000.0`) is exact on the
  inputs the claims mention.
* The polling loop is time-bounded in the code (300 s budget, 0.1 s tick);
  it is modelled with a fuel parameter counting the remaining interval
  ticks, and the successive poll outcomes are supplied as a function
  `Nat → PollOutcome` standing for what `get_transcription_status` does on
  the k-th call (either raising a transport error or returning a job dict).
-/

/-- Substring search on character lists: Python's `needle in hay`. -/
def subAux (needle : List Char) : List Char → Bool
  | [] => needle.isEmpty
  | c :: rest => needle.isPrefixOf (c :: rest) || subAux needle rest

/-- Python's `needle in hay` on strings. -/
def hasSubstr (hay needle : String) : Bool :=
  subAux needle.data hay.data

/-- Python's `str.lower()` (character-wise ASCII lower-casing). -/
def pyLower (s : String) : String :=
  String.mk (s.data.map Char.toLower)

/-- Python's `str.startswith(pre)`. -/
def pyStartsWith (s pre : String) : Bool :=
  pre.data.isPrefixOf s.data

/-- Python truthiness of an optional string (`None` and `""` are falsy). -/
def truthyStr : Option String → Bool
  | none => false
  | some s => s ≠ ""

/-- Python truthiness of an optional list (`None` and `[]` are falsy). -/
def truthyList {α : Type} : Option (List α) → Bool
  | none => false
  | some l => !l.isEmpty

/-- The `language_mapping` dict of `map_language_code` (utils.py). -/
def language_mapping : List (String × String) :=
  [("en", "en"), ("es", "es"), ("fr", "fr"), ("de", "de"), ("it", "it"),
   ("pt", "pt"), ("nl", "nl"), ("ja", "ja"), ("ko", "ko"), ("zh", "zh"),
   ("ru", "ru"), ("ar", "ar"), ("hi", "hi"), ("tr", "tr"), ("pl", "pl"),
   ("uk", "uk"), ("vi", "vi"), ("ms", "ms"), ("th", "th"), ("fi", "fi"),
   ("da", "da"), ("no", "no"), ("sv", "sv")]

/-- Python `dict.get(k, default)` on an association list. -/
def dictGetD (m : List (String × String)) (k d : String) : String :=
  match m.find? (fun p => p.1 == k) with
  | some p => p.2
  | none => d

/-- `map_language_code` (utils.py): falsy input gives `None`, otherwise the
mapping is consulted with the lower-cased tag, defaulting to the
lower-cased tag itself. -/
def map_language_code (openai_language : Option String) : Option String :=
  match openai_language with
  | none => none
  | some s =>
    if s = "" then none
    else some (dictGetD language_mapping (pyLower s) (pyLower s))

/-- The `valid_models` set of `map_openai_model_to_speech_model` (utils.py). -/
def valid_models : List String := ["best", "slam-1", "universal"]

/-- `map_openai_model_to_speech_model` (utils.py): falsy input gives `None`;
a lower-cased match against `valid_models` gives the lower-cased name;
any other name gives `None` ("Return None for invalid models (will be
handled by caller)"). -/
def map_openai_model_to_speech_model (openai_model : Option String) : Option String :=
  match openai_model with
  | none => none
  | some s =>
    if s = "" then none
    else if valid_models.contains (pyLower s) then some (pyLower s)
    else none

/-- `parse_word_boost` (utils.py): replace commas with spaces, split on
whitespace, strip, drop empties; empty result collapses to `None`. -/
def parse_word_boost (prompt : Option String) : Option (List String) :=
  match prompt with
  | none => none
  | some p =>
    if p = "" then none
    else
      let words :=
        (((p.replace "," " ").split (fun c => c.isWhitespace)).map
          (fun w => w.trim)).filter (fun w => w ≠ "")
      if words.isEmpty then none else some words

/-- The `audio_extensions` list of `validate_audio_url` (utils.py). -/
def audio_extensions : List String :=
  [".wav", ".mp3", ".m4a", ".flac", ".ogg", ".aac", ".wma"]

/-- `validate_audio_url` (utils.py): non-empty, `http://`/`https://` scheme,
and either a known audio extension occurs in the lower-cased URL or the
substring `audio` does. -/
def validate_audio_url (url : String) : Bool :=
  if url = "" then false
  else if !(pyStartsWith url "http://" || pyStartsWith url "https://") then false
  else
    audio_extensions.any (fun ext => hasSubstr (pyLower url) ext)
      || hasSubstr (pyLower url) "audio"

/-- A timed word of the provider payload (`words` entries), all fields
accessed with `.get` in the code. -/
structure AAIWord where
  start : Option ℚ
  end_ : Option ℚ
  text : Option String
deriving DecidableEq

/-- A timed speaker utterance of the provider payload (`utterances`
entries). -/
structure AAIUtterance where
  start : Option ℚ
  end_ : Option ℚ
  text : Option String
  speaker : Option String
deriving DecidableEq

/-- The provider job payload handed to
`convert_assemblyai_to_openai_response` (the fields that function reads). -/
structure AAIResponse where
  text : Option String
  language_code : Option String
  audio_duration : Option ℚ
  utterances : Option (List AAIUtterance)
  words : Option (List AAIWord)
deriving DecidableEq

/-- One segment dict of the OpenAI-shaped response. Word-derived segments
carry no `speaker` key, modelled as `speaker = none`. -/
structure OpenAISegment where
  id : Nat
  seek : ℚ
  start : ℚ
  end_ : ℚ
  text : String
  speaker : Option String
  tokens : List Nat
  temperature : ℚ
  avg_logprob : ℚ
  compression_ratio : ℚ
  no_speech_prob : ℚ
deriving DecidableEq

/-- The OpenAI-shaped structured response dict; a missing `segments` key is
`segments = none`. -/
structure OpenAIResponse where
  text : String
  task : String
  language : Option String
  duration : Option ℚ
  segments : Option (List OpenAISegment)
deriving DecidableEq

/-- The segment dict built from one utterance at position `i` of the output
list (utils.py, utterance branch): `seek` is the raw millisecond start,
`start`/`end` are divided by 1000, the speaker defaults to `"Unknown"`,
and the compatibility fields are the literals of the source
(`compression_ratio` is `1.0` there). -/
def utteranceSegment (i : Nat) (u : AAIUtterance) : OpenAISegment :=
  { id := i
    seek := u.start.getD 0
    start := u.start.getD 0 / 1000
    end_ := u.end_.getD 0 / 1000
    text := u.text.getD ""
    speaker := some (u.speaker.getD "Unknown")
    tokens := []
    temperature := 0
    avg_logprob := 0
    compression_ratio := 1
    no_speech_prob := 0 }

/-- The segment dict built from one word at position `i` of the output list
(utils.py, word branch): identical to the utterance case but with no
`speaker` key. -/
def wordSegment (i : Nat) (w : AAIWord) : OpenAISegment :=
  { id := i
    seek := w.start.getD 0
    start := w.start.getD 0 / 1000
    end_ := w.end_.getD 0 / 1000
    text := w.text.getD ""
    speaker := none
    tokens := []
    temperature := 0
    avg_logprob := 0
    compression_ratio := 1
    no_speech_prob := 0 }

/-- The segment-accumulating loop of the source: each appended segment's
`id` is the length of the list so far, i.e. its position. -/
def buildSegments {α : Type} (mk : Nat → α → OpenAISegment) : Nat → List α → List OpenAISegment
  | _, [] => []
  | i, x :: xs => mk i x :: buildSegments mk (i + 1) xs

/-- The `json` branch of `convert_assemblyai_to_openai_response` (utils.py):
text/task/language/duration are copied (`audio_duration` is passed through
unchanged), and `segments` is present exactly when the payload has a
truthy `utterances` list (priority) or, failing that, a truthy `words`
list. -/
def convert_structured (r : AAIResponse) : OpenAIResponse :=
  { text := r.text.getD ""
    task := "transcribe"
    language := r.language_code
    duration := r.audio_duration
    segments :=
      if truthyList r.utterances then
        some (buildSegments utteranceSegment 0 (r.utterances.getD []))
      else if truthyList r.words then
        some (buildSegments wordSegment 0 (r.words.getD []))
      else none }

/-- The two possible shapes returned by
`convert_assemblyai_to_openai_response`, depending on `response_format`. -/
inductive ConvertResult where
  | text (s : String)
  | structured (r : OpenAIResponse)
deriving DecidableEq

/-- `convert_assemblyai_to_openai_response` (utils.py): format `text`
returns the bare transcript (`.get("text", "")`), anything else the
structured dict. -/
def convert_assemblyai_to_openai_response (r : AAIResponse) (response_format : String) : ConvertResult :=
  if response_format = "text" then .text (r.text.getD "")
  else .structured (convert_structured r)

/-- The job dict returned by one successful poll
(`get_transcription_status`): the fields `wait_for_completion` reads with
`.get`. -/
structure ProviderJob where
  status : Option String
  error : Option String
deriving DecidableEq

/-- Outcome of one call to `get_transcription_status`: either a transport
failure (the wrapped exception message, see `transient_wrap`) or a job
dict. -/
inductive PollOutcome where
  | transportError (msg : String)
  | job (j : ProviderJob)
deriving DecidableEq

/-- `get_transcription_status` wraps a transport failure as
`"Failed to get transcription status: " + str(e)` before raising. -/
def transient_wrap (msg : String) : String :=
  "Failed to get transcription status: " ++ msg

/-- The message of the exception raised when the polling budget is
exhausted (`timeout_seconds = 300`). -/
def timeout_message : String :=
  "Transcription timeout after 300 seconds"

/-- The body of `wait_for_completion` (assemblyai_client.py): `poll k` is
what the k-th call to `get_transcription_status` does, `fuel` the number
of interval ticks left in the 300-second budget, `k` the polls already
performed. A transport error is re-raised when its wrapped message
contains `"Transcription failed:"` (the except clause's substring check),
otherwise swallowed; status `completed` returns the job, status `error`
raises `"Transcription failed: " + result.get("error", "Unknown error
occurred")` (always re-raised by the except clause); every other status
is non-terminal. The result carries the number of polls performed. -/
def wait_aux (poll : Nat → PollOutcome) : Nat → Nat → Except (String × Nat) (ProviderJob × Nat)
  | 0, k => .error (timeout_message, k)
  | fuel + 1, k =>
    match poll k with
    | .transportError msg =>
      if hasSubstr (transient_wrap msg) "Transcription failed:" then
        .error (transient_wrap msg, k + 1)
      else wait_aux poll fuel (k + 1)
    | .job j =>
      if j.status = some "completed" then .ok (j, k + 1)
      else if j.status = some "error" then
        .error ("Transcription failed: " ++ j.error.getD "Unknown error occurred", k + 1)
      else wait_aux poll fuel (k + 1)

/-- `wait_for_completion` (assemblyai_client.py), started with no polls
performed yet. -/
def wait_for_completion (poll : Nat → PollOutcome) (fuel : Nat) : Except (String × Nat) (ProviderJob × Nat) :=
  wait_aux poll fuel 0

/-- The error-classification chain of `create_transcription`
(main.py lines 215-234): case-insensitive substring checks on the failure
message giving (status code, error type, code). -/
def classify_transcription_error (error_msg : String) : Nat × String × String :=
  if hasSubstr (pyLower error_msg) "timeout" then
    (408, "timeout_error", "transcription_timeout")
  else if hasSubstr (pyLower error_msg) "invalid" || hasSubstr (pyLower error_msg) "bad request" then
    (400, "invalid_request_error", "invalid_audio")
  else if hasSubstr (pyLower error_msg) "unauthorized" then
    (401, "authentication_error", "invalid_api_key")
  else if hasSubstr (pyLower error_msg) "not found" then
    (404, "not_found_error", "audio_not_found")
  else
    (500, "api_error", "transcription_failed")

/-- `AssemblyAITranscriptionRequest` (models.py): the provider job params
built by the endpoint before submission. -/
structure AssemblyAITranscriptionRequest where
  audio_url : String
  language_code : Option String
  word_boost : Option (List String)
  speech_model : Option String
  punctuate : Bool
  format_text : Bool
deriving DecidableEq

/-- How far the endpoint pipeline gets before the job-execution stage:
either an error response (status, error type, optional code) was raised,
or the provider job params were handed to the client for submission. -/
inductive EndpointOutcome where
  | errorResp (status : Nat) (error_type : String) (code : Option String)
  | submitted (params : AssemblyAITranscriptionRequest)
deriving DecidableEq

/-- The audio-source stage of `create_transcription` (main.py lines
91-153): a present file requires a configured API key (client init) and a
successful upload (`upload_result` is what `upload_file` does); otherwise
a truthy `audio_url` is validated syntactically; otherwise the request is
rejected as missing its audio input. -/
def resolve_audio (api_key_present : Bool) (upload_result : Except String String)
    (file_present : Bool) (audio_url : Option String) : Except EndpointOutcome String :=
  if file_present then
    if !api_key_present then
      .error (.errorResp 500 "api_error" (some "missing_api_key"))
    else
      match upload_result with
      | .error _ => .error (.errorResp 400 "invalid_request_error" (some "file_upload_failed"))
      | .ok u => .ok u
  else if truthyStr audio_url then
    if validate_audio_url (audio_url.getD "") then .ok (audio_url.getD "")
    else .error (.errorResp 400 "invalid_request_error" (some "invalid_audio_url"))
  else
    .error (.errorResp 400 "invalid_request_error" (some "missing_audio_input"))

/-- `create_transcription` (main.py) up to the job-execution stage: audio
source resolution, parameter mapping, model validation (`if model and
speech_model is None`), client initialization for the URL branch, and the
construction of the provider job params. `response_format` and
`temperature` play no part in this prefix of the handler. The `model`
argument is the form value after FastAPI's default (see
`effective_model`). -/
def create_transcription (api_key_present : Bool) (upload_result : Except String String)
    (file_present : Bool) (model : String) (language : Option String)
    (prompt : Option String) (audio_url : Option String) : EndpointOutcome :=
  match resolve_audio api_key_present upload_result file_present audio_url with
  | .error e => e
  | .ok final_audio_url =>
    let language_code := map_language_code language
    let speech_model := map_openai_model_to_speech_model (some model)
    let word_boost := parse_word_boost prompt
    if model ≠ "" && speech_model.isNone then
      .errorResp 400 "invalid_request_error" (some "invalid_model")
    else if !file_present && !api_key_present then
      .errorResp 500 "api_error" (some "missing_api_key")
    else
      .submitted
        { audio_url := final_audio_url
          language_code := language_code
          word_boost := word_boost
          speech_model := speech_model
          punctuate := true
          format_text := true }

/-- FastAPI's `model: str = Form("whisper-1")`: the default applies only
when the form field is absent; a supplied value (even `""`) is kept. -/
def effective_model (form_model : Option String) : String :=
  form_model.getD "whisper-1"

/-- A concrete payload whose provider duration is 125000, used to exhibit
the absence of the ms→s division. -/
def durationJob : AAIResponse :=
  { text := some "hello"
    language_code := some "en"
    audio_duration := some 125000
    utterances := none
    words := none }

/-- A concrete utterance used in several witnesses. -/
def cUtter : AAIUtterance :=
  { start := some 0, end_ := some 500, text := some "hi", speaker := some "A" }

/-- A concrete timed word used in several witnesses. -/
def cWord : AAIWord :=
  { start := some 100, end_ := some 200, text := some "hey" }

/-- A concrete payload carrying one utterance. -/
def utterJob : AAIResponse :=
  { text := some "hi"
    language_code := some "en"
    audio_duration := some 10
    utterances := some [cUtter]
    words := none }

/-- A concrete payload carrying both an utterance list and a word list. -/
def mixedJob : AAIResponse :=
  { text := some "hey"
    language_code := some "en"
    audio_duration := some 3
    utterances := some [cUtter]
    words := some [cWord] }

/-- A poll sequence whose first call raises a transport error whose text
happens to contain the marker `"Transcription failed:"`, followed by a
completed job. -/
def trickyPoll : Nat → PollOutcome
  | 0 => .transportError "Transcription failed: boom"
  | _ => .job { status := some "completed", error := none }

/-- A poll sequence whose first call raises an ordinary transport error,
followed by a completed job. -/
def retryPoll : Nat → PollOutcome
  | 0 => .transportError "connection reset"
  | _ => .job { status := some "completed", error := none }

/-- A poll sequence that always reports provider status `error` with
message `"bad audio"`. -/
def errorPoll : Nat → PollOutcome
  | _ => .job { status := some "error", error := some "bad audio" }

/-- The poll sequence queued, processing, completed. -/
def seqPoll : Nat → PollOutcome
  | 0 => .job { status := some "queued", error := none }
  | 1 => .job { status := some "processing", error := none }
  | _ => .job { status := some "completed", error := none }

/-- A poll sequence that always reports status `processing`. -/
def processingPoll : Nat → PollOutcome
  | _ => .job { status := some "processing", error := none }

/-- The segment loop produces one segment per input element. -/
theorem buildSegments_length {α : Type} (mk : Nat → α → OpenAISegment) (i : Nat) (xs : List α) :
    (buildSegments mk i xs).length = xs.length := by
  induction xs generalizing i with
  | nil => rfl
  | cons x xs ih => simpa [buildSegments] using ih (i + 1)

/-- The j-th segment the loop produces comes from the j-th input element,
with index `i + j`. -/
theorem buildSegments_get {α : Type} (mk : Nat → α → OpenAISegment) (i : Nat) (xs : List α)
    (j : Nat) (hj : j < (buildSegments mk i xs).length) (hx : j < xs.length) :
    (buildSegments mk i xs).get ⟨j, hj⟩ = mk (i + j) (xs.get ⟨j, hx⟩) := by
  induction xs generalizing i j with
  | nil => exact absurd hx (by simp)
  | cons x xs ih =>
    cases j with
    | zero => simp [buildSegments]
    | succ j =>
      have := ih (i + 1) j (by simpa [buildSegments] using hj) (by simpa using hx)
      simpa [buildSegments, Nat.add_assoc, Nat.add_comm 1 j] using this

/-- Every segment the loop produces is `mk` of some input element. -/
theorem buildSegments_mem {α : Type} (mk : Nat → α → OpenAISegment) (i : Nat) (xs : List α)
    (s : OpenAISegment) (h : s ∈ buildSegments mk i xs) :
    ∃ j x, x ∈ xs ∧ s = mk j x := by
  induction xs generalizing i with
  | nil => simp [buildSegments] at h
  | cons x xs ih =>
    rcases (by simpa [buildSegments] using h : s = mk i x ∨ s ∈ buildSegments mk (i + 1) xs) with
      h1 | h2
    · exact ⟨i, x, by simp, h1⟩
    · obtain ⟨j, y, hy, hs⟩ := ih (i + 1) h2
      exact ⟨j, y, by simp [hy], hs⟩

/-- The mapper sends every non-empty name whose lower-casing is outside
`valid_models` to `none`. -/
theorem map_model_none_of_invalid (s : String) (h1 : s ≠ "")
    (h2 : valid_models.contains (pyLower s) = false) :
    map_openai_model_to_speech_model (some s) = none := by
  show (if s = "" then none
    else if valid_models.contains (pyLower s) = true then some (pyLower s)
    else none) = none
  rw [if_neg h1, h2]
  simp

/-- Claim C1, counterexample: on a payload with provider duration `125000`
the structured result's duration is `125000`, not `125.0` — the code
passes `audio_duration` through without dividing by 1000. -/
theorem C1_counterexample :
    (convert_structured durationJob).duration = some 125000 ∧
    (convert_structured durationJob).duration ≠ some 125 := by
  constructor
  · rfl
  · decide

/-- Claim C1, amended: `convert_structured` sets the result's duration to
the provider's `audio_duration` unchanged (no unit conversion); a provider
duration of 125000 yields a result duration of 125000. -/
theorem C1_duration_passthrough (r : AAIResponse) :
    (convert_structured r).duration = r.audio_duration := rfl

/-- Claim C2, counterexample: for the non-empty invalid name `"whisper-1"`
the mapper returns `none` — exactly the value it returns for an absent
name, so no distinguished "invalid" value exists. -/
theorem C2_counterexample :
    map_openai_model_to_speech_model (some "whisper-1") = none ∧
    map_openai_model_to_speech_model none = none := by
  constructor
  · decide
  · rfl

/-- Claim C2, amended: for every non-empty model name whose lower-casing is
outside `valid_models`, the mapper returns `none`, the same value as for
an absent name; the caller distinguishes the two cases by consulting the
original name's truthiness, not the mapper's result. -/
theorem C2_invalid_is_none (s : String) (h1 : s ≠ "")
    (h2 : valid_models.contains (pyLower s) = false) :
    map_openai_model_to_speech_model (some s) = none ∧
    map_openai_model_to_speech_model none = none :=
  ⟨map_model_none_of_invalid s h1 h2, rfl⟩

/-- Witness for C2_invalid_is_none at the concrete name `"whisper-1"`. -/
theorem C2_witness :
    "whisper-1" ≠ "" ∧ valid_models.contains (pyLower "whisper-1") = false ∧
    (map_openai_model_to_speech_model (some "whisper-1") = none ∧
     map_openai_model_to_speech_model none = none) :=
  ⟨by decide, by decide, C2_invalid_is_none "whisper-1" (by decide) (by decide)⟩

/-- Claim C4, counterexample: the segment built for a concrete utterance
carries compression ratio `1.0`, not `0` — the source literal is `1.0`. -/
theorem C4_counterexample :
    ((convert_structured utterJob).segments.getD []).map
        (fun s => s.compression_ratio) = [1] ∧ (1 : ℚ) ≠ 0 := by
  constructor
  · rfl
  · decide

/-- Claim C4, amended: every segment produced by `convert_structured`
carries the fixed compatibility fields of the source: empty token list,
temperature 0, average log-probability 0, compression ratio 1.0 (not 0),
and no-speech probability 0. -/
theorem C4_segment_fixed_fields (r : AAIResponse) (l : List OpenAISegment) (s : OpenAISegment)
    (hl : (convert_structured r).segments = some l) (hs : s ∈ l) :
    s.tokens = [] ∧ s.temperature = 0 ∧ s.avg_logprob = 0 ∧
    s.compression_ratio = 1 ∧ s.no_speech_prob = 0 := by
  have hseg : (convert_structured r).segments =
      (if truthyList r.utterances then
        some (buildSegments utteranceSegment 0 (r.utterances.getD []))
      else if truthyList r.words then
        some (buildSegments wordSegment 0 (r.words.getD []))
      else none) := rfl
  rw [hseg] at hl
  split at hl
  · injection hl with h
    subst h
    obtain ⟨j, x, _, rfl⟩ :=
      buildSegments_mem utteranceSegment 0 (r.utterances.getD []) s hs
    exact ⟨rfl, rfl, rfl, rfl, rfl⟩
  · split at hl
    · injection hl with h
      subst h
      obtain ⟨j, x, _, rfl⟩ :=
        buildSegments_mem wordSegment 0 (r.words.getD []) s hs
      exact ⟨rfl, rfl, rfl, rfl, rfl⟩
    · exact absurd hl (by simp)

/-- Witness for C4_segment_fixed_fields on the concrete one-utterance
payload. -/
theorem C4_witness :
    (convert_structured utterJob).segments = some [utteranceSegment 0 cUtter] ∧
    (utteranceSegment 0 cUtter).tokens = [] ∧
    (utteranceSegment 0 cUtter).temperature = 0 ∧
    (utteranceSegment 0 cUtter).avg_logprob = 0 ∧
    (utteranceSegment 0 cUtter).compression_ratio = 1 ∧
    (utteranceSegment 0 cUtter).no_speech_prob = 0 :=
  ⟨rfl, C4_segment_fixed_fields utterJob [utteranceSegment 0 cUtter]
    (utteranceSegment 0 cUtter) rfl (by simp)⟩

/-- Claim C10, confirmed: the `text` output format of the converter always
equals the `text` field of the structured output on the same payload;
both read `payload.get("text", "")`. -/
theorem C10_text_roundtrip (r : AAIResponse) :
    convert_assemblyai_to_openai_response r "text" =
      .text (convert_structured r).text := rfl

/-- A poll returning a non-terminal status makes the loop continue with one
less tick of budget. -/
theorem wait_aux_continue (poll : Nat → PollOutcome) (fuel k : Nat) (j : ProviderJob)
    (hp : poll k = .job j) (hc : j.status ≠ some "completed") (he : j.status ≠ some "error") :
    wait_aux poll (fuel + 1) k = wait_aux poll fuel (k + 1) := by
  conv_lhs => unfold wait_aux
  rw [hp]
  simp [hc, he]

/-- A poll returning status `completed` makes the loop return that job with
the number of polls performed. -/
theorem wait_aux_completed (poll : Nat → PollOutcome) (fuel k : Nat) (j : ProviderJob)
    (hp : poll k = .job j) (hc : j.status = some "completed") :
    wait_aux poll (fuel + 1) k = .ok (j, k + 1) := by
  conv_lhs => unfold wait_aux
  rw [hp]
  simp [hc]

/-- Claim C5, counterexample: the transport error raised at the first poll
is not swallowed — because its text contains `"Transcription failed:"`,
the except clause's substring check re-raises it after one poll instead of
retrying and reaching the completed job at the second poll. -/
theorem C5_counterexample :
    wait_for_completion trickyPoll 2 =
      .error ("Failed to get transcription status: Transcription failed: boom", 1) ∧
    wait_for_completion trickyPoll 2 ≠
      .ok ({ status := some "completed", error := none }, 2) := by
  refine ⟨rfl, ?_⟩
  have hpos : wait_for_completion trickyPoll 2 =
      .error ("Failed to get transcription status: Transcription failed: boom", 1) := rfl
  rw [hpos]
  intro h
  simp at h

/-- Claim C5, amended: a transient transport error raised by a poll is
swallowed and the loop retries at the next tick unless the wrapped message
contains `"Transcription failed:"` (in which case it is re-raised); a poll
returning provider status `error` always raises immediately, with a
message carrying the provider's message, after performing no further
polls. -/
theorem C5_poll_error_handling (poll : Nat → PollOutcome) (fuel k : Nat) :
    (∀ msg, poll k = .transportError msg →
      hasSubstr (transient_wrap msg) "Transcription failed:" = false →
      wait_aux poll (fuel + 1) k = wait_aux poll fuel (k + 1)) ∧
    (∀ j, poll k = .job j → j.status = some "error" →
      wait_aux poll (fuel + 1) k =
        .error ("Transcription failed: " ++ j.error.getD "Unknown error occurred", k + 1)) := by
  constructor
  · intro msg hp hm
    conv_lhs => unfold wait_aux
    rw [hp]
    simp [hm]
  · intro j hp hs
    conv_lhs => unfold wait_aux
    rw [hp]
    simp [hs]

/-- Witness for C5_poll_error_handling: an ordinary transport error at the
first poll is retried, and a status-`error` poll raises at once with the
provider's message `"bad audio"`. -/
theorem C5_witness :
    wait_aux retryPoll 3 0 = wait_aux retryPoll 2 1 ∧
    wait_aux errorPoll 3 0 = .error ("Transcription failed: bad audio", 1) :=
  ⟨(C5_poll_error_handling retryPoll 2 0).1 "connection reset" rfl (by decide),
   (C5_poll_error_handling errorPoll 2 0).2 ⟨some "error", some "bad audio"⟩ rfl rfl⟩

/-- Claim C6, confirmed: whenever successive polls report queued,
processing, completed and the budget allows at least three polls, the loop
returns the third poll's job having performed exactly 3 polls — the poll
count in the result is 3, so the payload is not returned after fewer. -/
theorem C6_three_polls (poll : Nat → PollOutcome) (j0 j1 j2 : ProviderJob) (fuel : Nat)
    (h0 : poll 0 = .job j0) (hs0 : j0.status = some "queued")
    (h1 : poll 1 = .job j1) (hs1 : j1.status = some "processing")
    (h2 : poll 2 = .job j2) (hs2 : j2.status = some "completed")
    (hf : 3 ≤ fuel) :
    wait_for_completion poll fuel = .ok (j2, 3) := by
  obtain ⟨n, rfl⟩ : ∃ n, fuel = n + 3 := ⟨fuel - 3, by omega⟩
  show wait_aux poll (n + 3) 0 = .ok (j2, 3)
  have step0 : wait_aux poll (n + 3) 0 = wait_aux poll (n + 2) 1 :=
    wait_aux_continue poll (n + 2) 0 j0 h0 (by simp [hs0]) (by simp [hs0])
  have step1 : wait_aux poll (n + 2) 1 = wait_aux poll (n + 1) 2 :=
    wait_aux_continue poll (n + 1) 1 j1 h1 (by simp [hs1]) (by simp [hs1])
  have step2 : wait_aux poll (n + 1) 2 = .ok (j2, 3) :=
    wait_aux_completed poll n 2 j2 h2 hs2
  exact step0.trans (step1.trans step2)

/-- Witness for C6_three_polls on the concrete queued/processing/completed
sequence with a budget of exactly 3 ticks. -/
theorem C6_witness :
    wait_for_completion seqPoll 3 =
      .ok ({ status := some "completed", error := none }, 3) :=
  C6_three_polls seqPoll
    { status := some "queued", error := none }
    { status := some "processing", error := none }
    { status := some "completed", error := none }
    3 rfl rfl rfl rfl rfl rfl (by decide)

/-- Claim C7, confirmed: when every poll reports status `processing`, the
loop exhausts its budget and raises the timeout message, and the
orchestrator's classification of that message is status 408, type
timeout_error, code transcription_timeout. -/
theorem C7_timeout_classified (poll : Nat → PollOutcome) (fuel : Nat)
    (h : ∀ k, ∃ j, poll k = .job j ∧ j.status = some "processing") :
    wait_for_completion poll fuel = .error (timeout_message, fuel) ∧
    classify_transcription_error timeout_message =
      (408, "timeout_error", "transcription_timeout") := by
  constructor
  · have gen : ∀ f k, wait_aux poll f k = .error (timeout_message, f + k) := by
      intro f
      induction f with
      | zero => intro k; rw [Nat.zero_add]; unfold wait_aux; rfl
      | succ n ih =>
        intro k
        obtain ⟨j, hp, hs⟩ := h k
        rw [wait_aux_continue poll n k j hp (by simp [hs]) (by simp [hs]), ih (k + 1),
          show n + (k + 1) = n + 1 + k by omega]
    simpa using gen fuel 0
  · decide

/-- Witness for C7_timeout_classified on the always-processing sequence
with a budget of 2 ticks. -/
theorem C7_witness :
    wait_for_completion processingPoll 2 = .error (timeout_message, 2) ∧
    classify_transcription_error timeout_message =
      (408, "timeout_error", "transcription_timeout") :=
  C7_timeout_classified processingPoll 2
    (fun _ => ⟨{ status := some "processing", error := none }, rfl, rfl⟩)

/-- Claim C8, confirmed: a truthy utterance list yields one segment per
utterance, each carrying the utterance's speaker defaulting to
`"Unknown"`, regardless of any word list; a truthy word list with no
truthy utterance list yields one segment per word with no speaker field;
and with neither the result carries no segment list at all. -/
theorem C8_segment_priority (r : AAIResponse) :
    (∀ us, r.utterances = some us → us ≠ [] →
      ∃ l, (convert_structured r).segments = some l ∧
        l.length = us.length ∧
        ∀ i (hi : i < l.length) (hu : i < us.length),
          (l.get ⟨i, hi⟩).speaker = some ((us.get ⟨i, hu⟩).speaker.getD "Unknown") ∧
          (l.get ⟨i, hi⟩).text = (us.get ⟨i, hu⟩).text.getD "") ∧
    (truthyList r.utterances = false →
      ∀ ws, r.words = some ws → ws ≠ [] →
      ∃ l, (convert_structured r).segments = some l ∧
        l.length = ws.length ∧ ∀ s ∈ l, s.speaker = none) ∧
    (truthyList r.utterances = false → truthyList r.words = false →
      (convert_structured r).segments = none) := by
  have hseg : (convert_structured r).segments =
      (if truthyList r.utterances then
        some (buildSegments utteranceSegment 0 (r.utterances.getD []))
      else if truthyList r.words then
        some (buildSegments wordSegment 0 (r.words.getD []))
      else none) := rfl
  refine ⟨?_, ?_, ?_⟩
  · intro us hus hne
    have ht : truthyList r.utterances = true := by
      rw [hus]
      cases us with
      | nil => exact absurd rfl hne
      | cons a l => rfl
    refine ⟨buildSegments utteranceSegment 0 us, ?_, ?_, ?_⟩
    · rw [hseg, ht]
      simp [hus]
    · exact buildSegments_length utteranceSegment 0 us
    · intro i hi hu
      rw [buildSegments_get utteranceSegment 0 us i hi hu]
      exact ⟨rfl, rfl⟩
  · intro hu ws hws hne
    have ht : truthyList r.words = true := by
      rw [hws]
      cases ws with
      | nil => exact absurd rfl hne
      | cons a l => rfl
    refine ⟨buildSegments wordSegment 0 ws, ?_, ?_, ?_⟩
    · rw [hseg, hu, ht]
      simp [hws]
    · exact buildSegments_length wordSegment 0 ws
    · intro s hs
      obtain ⟨j, x, _, rfl⟩ := buildSegments_mem wordSegment 0 ws s hs
      rfl
  · intro hu hw
    rw [hseg, hu, hw]
    rfl

/-- Witness for C8_segment_priority: on the payload carrying both one
utterance and one word the segments derive from the utterance list. -/
theorem C8_witness :
    ∃ l, (convert_structured mixedJob).segments = some l ∧
      l.length = [cUtter].length ∧
      ∀ i (hi : i < l.length) (hu : i < [cUtter].length),
        (l.get ⟨i, hi⟩).speaker = some (([cUtter].get ⟨i, hu⟩).speaker.getD "Unknown") ∧
        (l.get ⟨i, hi⟩).text = ([cUtter].get ⟨i, hu⟩).text.getD "" :=
  (C8_segment_priority mixedJob).1 [cUtter] rfl (by simp)

/-- Claim C9, confirmed: whenever the audio-source stage has resolved a URL,
a non-empty model name whose lower-casing is outside `valid_models` makes
the endpoint return status 400, type invalid_request_error, code
invalid_model — an error response, so the pipeline never reaches the
submission stage. -/
theorem C9_invalid_model_rejected (api_key_present : Bool) (upload_result : Except String String)
    (file_present : Bool) (model : String) (language prompt audio_url : Option String)
    (url : String)
    (hsrc : resolve_audio api_key_present upload_result file_present audio_url = .ok url)
    (hne : model ≠ "")
    (hval : valid_models.contains (pyLower model) = false) :
    create_transcription api_key_present upload_result file_present model language prompt
        audio_url =
      .errorResp 400 "invalid_request_error" (some "invalid_model") := by
  unfold create_transcription
  rw [hsrc]
  have hsm := map_model_none_of_invalid model hne hval
  simp [hsm, hne]

/-- Witness for C9_invalid_model_rejected at the concrete invalid name
`"gpt-4o-transcribe"` with a valid audio URL. -/
theorem C9_witness :
    resolve_audio true (.ok "ignored") false (some "https://example.com/a.mp3") =
      .ok "https://example.com/a.mp3" ∧
    "gpt-4o-transcribe" ≠ "" ∧
    valid_models.contains (pyLower "gpt-4o-transcribe") = false ∧
    create_transcription true (.ok "ignored") false "gpt-4o-transcribe" none none
        (some "https://example.com/a.mp3") =
      .errorResp 400 "invalid_request_error" (some "invalid_model") :=
  ⟨rfl, by decide, by decide,
   C9_invalid_model_rejected true (.ok "ignored") false "gpt-4o-transcribe" none none
     (some "https://example.com/a.mp3") "https://example.com/a.mp3" rfl (by decide) (by decide)⟩

/-- Claim C3, counterexample: a request that supplies the model form field
as the explicitly empty string (so FastAPI's `"whisper-1"` default does
not apply) passes `if model and speech_model is None` vacuously and is
submitted with `speech_model = None` — the absent-model (no model
override) behavior is reachable through the endpoint. -/
theorem C3_counterexample :
    create_transcription true (.ok "ignored") false (effective_model (some "")) none none
        (some "https://example.com/a.mp3") =
      .submitted
        { audio_url := "https://example.com/a.mp3"
          language_code := none
          word_boost := none
          speech_model := none
          punctuate := true
          format_text := true } := rfl

/-- Claim C3, amended: a transcription request that omits the model form
field gets the default `"whisper-1"`, which is outside the allow-list, so
whenever the audio-source stage has resolved a URL the endpoint rejects
with status 400, type invalid_request_error, code invalid_model; the
absent-model behavior is unreachable by omitting the field, though it
remains reachable by supplying an explicitly empty model string. -/
theorem C3_omitted_model_rejected (api_key_present : Bool) (upload_result : Except String String)
    (file_present : Bool) (language prompt audio_url : Option String) (url : String)
    (hsrc : resolve_audio api_key_present upload_result file_present audio_url = .ok url) :
    create_transcription api_key_present upload_result file_present (effective_model none)
        language prompt audio_url =
      .errorResp 400 "invalid_request_error" (some "invalid_model") := by
  unfold create_transcription
  rw [hsrc]
  have hne : effective_model none ≠ "" := by decide
  have hsm := map_model_none_of_invalid (effective_model none) hne (by decide)
  simp [hsm, hne]

/-- Witness for C3_omitted_model_rejected with a valid audio URL. -/
theorem C3_witness :
    resolve_audio true (.ok "ignored") false (some "https://example.com/b.wav") =
      .ok "https://example.com/b.wav" ∧
    create_transcription true (.ok "ignored") false (effective_model none) none none
        (some "https://example.com/b.wav") =
      .errorResp 400 "invalid_request_error" (some "invalid_model") :=
  ⟨rfl, C3_omitted_model_rejected true (.ok "ignored") false none none
    (some "https://example.com/b.wav") "https://example.com/b.wav" rfl⟩
